import Mathlib

/-!
Verification of the restricted-marker transfer smart contract.

The contract (src/contract.rs, src/state.rs, src/msg.rs, src/error.rs)
implements an escrow workflow over a Provenance restricted marker:
a transfer is created (funds escrowed to the contract address), then
resolved by approve / reject / cancel, each of which deletes the stored
record and emits one marker-coin transfer instruction.

This file is a shallow embedding: the Rust entrypoints become Lean
functions threading the id-keyed transfer store explicitly, external
collaborators (the marker registry, the bank balances, the address
validator of the host api) become fields of a `Deps` record, and the
theorems below settle the specification claims against them.
-/

namespace RestrictedTransfer

/-- Addresses (`cosmwasm_std::Addr`) are plain strings. -/
abbrev Addr := String

/-- `cosmwasm_std::Coin`: a denom together with an amount.
Amounts are `Uint128` in the source; the contract only copies and
compares them (no arithmetic), so `Nat` models them faithfully. -/
structure Coin where
  denom : String
  amount : Nat
deriving DecidableEq, Repr

/-- `provwasm_std::MarkerAccess` capability kinds. -/
inductive MarkerAccess where
  | admin
  | burn
  | deposit
  | withdraw
  | mint
  | transfer
  | delete
deriving DecidableEq, Repr

/-- `provwasm_std::AccessGrant`: one address and its capability set. -/
structure AccessGrant where
  address : Addr
  permissions : List MarkerAccess
deriving DecidableEq, Repr

/-- `provwasm_std::MarkerType`. -/
inductive MarkerType where
  | restricted
  | coin
deriving DecidableEq, Repr

/-- `provwasm_std::Marker`, restricted to the fields the contract reads:
its type and its permission grants. -/
structure Marker where
  markerType : MarkerType
  permissions : List AccessGrant
deriving DecidableEq, Repr

/-- `cosmwasm_std::StdError`, restricted to the variants reachable here. -/
inductive StdError where
  | notFound (kind : String)
  | genericErr (msg : String)
deriving DecidableEq, Repr

/-- `ContractError` from src/error.rs. -/
inductive ContractError where
  | insufficientFunds
  | invalidFields (fields : List String)
  | loadTransferFailed (error : StdError)
  | std (error : StdError)
  | sentFundsUnsupported
  | unauthorized (error : String)
  | unsupportedUpgrade (sourceVersion targetVersion : String)
  | unsupportedMarkerType
deriving DecidableEq, Repr

/-- `Transfer` record from src/state.rs. -/
structure Transfer where
  id : String
  sender : Addr
  denom : String
  amount : Nat
  recipient : Addr
deriving DecidableEq, Repr

/-- The id-keyed transfer bucket (`get_transfer_storage` over key
`TRANSFER_KEY`), as a map from id to stored record. -/
abbrev TransferStore := String → Option Transfer

/-- `Bucket::save`: store a record under a key (overwriting). -/
def storeSave (store : TransferStore) (k : String) (t : Transfer) : TransferStore :=
  fun x => if x = k then some t else store x

/-- `Bucket::remove`: delete the record under a key. -/
def storeRemove (store : TransferStore) (k : String) : TransferStore :=
  fun x => if x = k then none else store x

/-- The empty bucket. -/
def emptyStore : TransferStore := fun _ => none

/-- External collaborators of the contract, read-only during a call:
the marker registry (`ProvenanceQuerier::get_marker_by_denom`), the bank
module (`querier.query_balance`, absent balances read as zero), and the
host api address validator (`deps.api.addr_validate`). -/
structure Deps where
  markers : String → Option Marker
  balances : Addr → String → Nat
  addrValidate : String → Option Addr

/-- `cosmwasm_std::Env`, restricted to the contract address. -/
structure Env where
  contractAddress : Addr
deriving DecidableEq, Repr

/-- `cosmwasm_std::MessageInfo`: the caller and the attached funds. -/
structure MessageInfo where
  sender : Addr
  funds : List Coin
deriving DecidableEq, Repr

/-- A response attribute (`cosmwasm_std::attr`). -/
structure Attribute where
  key : String
  value : String
deriving DecidableEq, Repr

/-- One `provwasm_std::transfer_marker_coins(amount, denom, to, from)`
instruction: the custody-transfer message emitted to the ledger. -/
structure MarkerTransferMsg where
  amount : Nat
  denom : String
  toAddr : Addr
  fromAddr : Addr
deriving DecidableEq, Repr

/-- `cosmwasm_std::Response`, restricted to what the contract sets:
attributes and marker-transfer messages. -/
structure Response where
  attributes : List Attribute
  messages : List MarkerTransferMsg
deriving DecidableEq, Repr

/-- Result of one entrypoint invocation: the Rust
`Result<Response, ContractError>` together with the transfer store as it
stands when the call returns (the store is threaded explicitly because
the Rust code mutates it in place). -/
abbrev CallResult := Except ContractError Response × TransferStore

/-- Is the `Except` component a success? -/
def exceptOk (e : Except ContractError Response) : Bool :=
  match e with
  | .ok _ => true
  | .error _ => false

/-- Messages of a result, `[]` on error. -/
def theMessages (e : Except ContractError Response) : List MarkerTransferMsg :=
  match e with
  | .ok r => r.messages
  | .error _ => []

/-- Error of a result, `none` on success. -/
def theError (e : Except ContractError Response) : Option ContractError :=
  match e with
  | .ok _ => none
  | .error err => some err

/-- `is_marker_admin` from src/contract.rs: true iff some grant of the
marker names the sender and its capability set contains `Admin`. -/
def is_marker_admin (sender : Addr) (marker : Marker) : Bool :=
  marker.permissions.any fun grant =>
    grant.address == sender &&
      grant.permissions.any fun markerAccess => markerAccess == MarkerAccess.admin

/-- `create_transfer` from src/contract.rs. Validates the recipient
address, requires the denom to be a restricted marker, refuses attached
funds, checks the sender balance, refuses duplicate ids, then stores the
record and emits the escrow instruction from the sender to the contract
address. -/
def create_transfer (deps : Deps) (env : Env) (info : MessageInfo)
    (id denom : String) (amount : Nat) (recipient : String)
    (store : TransferStore) : CallResult :=
  match deps.addrValidate recipient with
  | none => (.error (.std (.genericErr "invalid address")), store)
  | some recipientAddr =>
    let transfer : Transfer :=
      { id := id, sender := info.sender, denom := denom
        amount := amount, recipient := recipientAddr }
    let is_restricted_marker : Bool :=
      match deps.markers transfer.denom with
      | some m => m.markerType == MarkerType.restricted
      | none => false
    if is_restricted_marker then
      if !info.funds.isEmpty then
        (.error .sentFundsUnsupported, store)
      else
        let balance := deps.balances info.sender transfer.denom
        if balance < transfer.amount then
          (.error .insufficientFunds, store)
        else if (store transfer.id).isSome then
          (.error (.invalidFields ["id"]), store)
        else
          let response : Response :=
            { attributes :=
                [ { key := "action", value := "create_transfer" }
                , { key := "id", value := transfer.id }
                , { key := "denom", value := transfer.denom }
                , { key := "amount", value := toString transfer.amount }
                , { key := "sender", value := transfer.sender }
                , { key := "recipient", value := transfer.recipient } ]
              messages :=
                [ { amount := transfer.amount, denom := transfer.denom
                    toAddr := env.contractAddress, fromAddr := transfer.sender } ] }
          (.ok response, storeSave store transfer.id transfer)
    else
      (.error .unsupportedMarkerType, store)

/-- `cancel_transfer` from src/contract.rs. Loads the record, refuses
attached funds, requires the caller to equal the stored sender, then
emits the refund instruction and removes the record. -/
def cancel_transfer (deps : Deps) (env : Env) (info : MessageInfo)
    (transfer_id : String) (store : TransferStore) : CallResult :=
  match store transfer_id with
  | none => (.error (.loadTransferFailed (.notFound "Transfer")), store)
  | some transfer =>
    if !info.funds.isEmpty then
      (.error .sentFundsUnsupported, store)
    else if !(info.sender == transfer.sender) then
      (.error (.unauthorized "Only original sender can cancel"), store)
    else
      let response : Response :=
        { attributes :=
            [ { key := "action", value := "cancel" }
            , { key := "id", value := transfer.id }
            , { key := "denom", value := transfer.denom }
            , { key := "amount", value := toString transfer.amount }
            , { key := "sender", value := transfer.sender } ]
          messages :=
            [ { amount := transfer.amount, denom := transfer.denom
                toAddr := transfer.sender, fromAddr := env.contractAddress } ] }
      (.ok response, storeRemove store transfer_id)

/-- `reject_transfer` from src/contract.rs. Loads the record, refuses
attached funds, queries the marker for the record denom, requires the
caller to hold marker admin, then emits the refund instruction back to
the stored sender and removes the record. -/
def reject_transfer (deps : Deps) (env : Env) (info : MessageInfo)
    (transfer_id : String) (store : TransferStore) : CallResult :=
  match store transfer_id with
  | none => (.error (.loadTransferFailed (.notFound "Transfer")), store)
  | some transfer =>
    if !info.funds.isEmpty then
      (.error .sentFundsUnsupported, store)
    else
      match deps.markers transfer.denom with
      | none => (.error (.std (.notFound "Marker")), store)
      | some marker =>
        if !is_marker_admin info.sender marker then
          (.error (.unauthorized "MARKER_ADMIN permission is required to reject transfers"),
            store)
        else
          let response : Response :=
            { attributes :=
                [ { key := "action", value := "reject" }
                , { key := "id", value := transfer.id }
                , { key := "denom", value := transfer.denom }
                , { key := "amount", value := toString transfer.amount }
                , { key := "sender", value := transfer.sender }
                , { key := "admin", value := info.sender } ]
              messages :=
                [ { amount := transfer.amount, denom := transfer.denom
                    toAddr := transfer.sender, fromAddr := env.contractAddress } ] }
          (.ok response, storeRemove store transfer_id)

/-- `approve_transfer` from src/contract.rs. Loads the record, refuses
attached funds, queries the marker for the record denom, requires the
caller to hold marker admin, then emits the payout instruction to the
stored recipient and removes the record. -/
def approve_transfer (deps : Deps) (env : Env) (info : MessageInfo)
    (transfer_id : String) (store : TransferStore) : CallResult :=
  match store transfer_id with
  | none => (.error (.loadTransferFailed (.notFound "Transfer")), store)
  | some transfer =>
    if !info.funds.isEmpty then
      (.error .sentFundsUnsupported, store)
    else
      match deps.markers transfer.denom with
      | none => (.error (.std (.notFound "Marker")), store)
      | some marker =>
        if !is_marker_admin info.sender marker then
          (.error (.unauthorized "MARKER_ADMIN permission is required to approve transfers"),
            store)
        else
          let response : Response :=
            { attributes :=
                [ { key := "action", value := "approve" }
                , { key := "id", value := transfer.id }
                , { key := "denom", value := transfer.denom }
                , { key := "amount", value := toString transfer.amount }
                , { key := "sender", value := transfer.sender }
                , { key := "recipient", value := transfer.recipient }
                , { key := "admin", value := info.sender } ]
              messages :=
                [ { amount := transfer.amount, denom := transfer.denom
                    toAddr := transfer.recipient, fromAddr := env.contractAddress } ] }
          (.ok response, storeRemove store transfer_id)

/-- Is `c` an ASCII hexadecimal digit? -/
def isHexDigitChar (c : Char) : Bool :=
  c.isDigit || (('a' ≤ c && c ≤ 'f') || ('A' ≤ c && c ≤ 'F'))

/-- Split a character list at every dash. -/
def splitDash : List Char → List (List Char)
  | [] => [[]]
  | c :: cs =>
    let rest := splitDash cs
    if c = '-' then [] :: rest
    else
      match rest with
      | [] => [[c]]
      | g :: gs => (c :: g) :: gs

/-- Is `cs` a run of exactly `n` hexadecimal digits? -/
def isHexRun (cs : List Char) (n : Nat) : Bool :=
  cs.length == n && cs.all isHexDigitChar

/-- Modelled from the spec: the boundary-layer UUID format check
(`uuid::Uuid::parse_str` in src/msg.rs, the uuid crate being an external
dependency), in its canonical hyphenated 8-4-4-4-12 form. -/
def uuid_parse_ok (s : String) : Bool :=
  match splitDash s.toList with
  | [a, b, c, d, e] =>
    isHexRun a 8 && isHexRun b 4 && isHexRun c 4 && isHexRun d 4 && isHexRun e 12
  | _ => false

/-- `ExecuteMsg` from src/msg.rs. -/
inductive ExecuteMsg where
  | approveTransfer (id : String)
  | cancelTransfer (id : String)
  | rejectTransfer (id : String)
  | transfer (id denom : String) (amount : Nat) (recipient : String)
deriving DecidableEq, Repr

/-- `ExecuteMsg::validate` from src/msg.rs: collects the invalid field
names (id not a UUID; for Transfer also amount below one, empty denom,
empty recipient) and fails with `InvalidFields` when any were found. -/
def ExecuteMsg.validate : ExecuteMsg → Except ContractError Unit
  | .approveTransfer id
  | .cancelTransfer id
  | .rejectTransfer id =>
    if uuid_parse_ok id then .ok () else .error (.invalidFields ["id"])
  | .transfer id denom amount recipient =>
    let invalidFields : List String :=
      (if uuid_parse_ok id then [] else ["id"]) ++
      (if amount < 1 then ["amount"] else []) ++
      (if denom.isEmpty then ["denom"] else []) ++
      (if recipient.isEmpty then ["recipient"] else [])
    if invalidFields.isEmpty then .ok () else .error (.invalidFields invalidFields)

/-- `execute` from src/contract.rs: validate the message, then dispatch
to the matching operation. -/
def execute (deps : Deps) (env : Env) (info : MessageInfo)
    (msg : ExecuteMsg) (store : TransferStore) : CallResult :=
  match msg.validate with
  | .error e => (.error e, store)
  | .ok _ =>
    match msg with
    | .approveTransfer id => approve_transfer deps env info id store
    | .cancelTransfer id => cancel_transfer deps env info id store
    | .rejectTransfer id => reject_transfer deps env info id store
    | .transfer id denom amount recipient =>
      create_transfer deps env info id denom amount recipient store

/-- Iterate the store effect of re-issuing the same Create call `n`
times (each re-issue runs against the store the previous one left). -/
def createIter (deps : Deps) (env : Env) (info : MessageInfo)
    (id denom : String) (amount : Nat) (recipient : String) :
    Nat → TransferStore → TransferStore
  | 0, store => store
  | n + 1, store =>
    createIter deps env info id denom amount recipient n
      (create_transfer deps env info id denom amount recipient store).2

/-! ## Concrete sample data (mirroring the fixtures of the contract's
own test module) for evaluating the operations on closed inputs. -/

/-- The transfer id used throughout the contract tests. -/
def sampleId : String := "56253028-12f5-4d2a-a691-ebdfd2a7b865"

/-- A second well-formed transfer id. -/
def otherId : String := "00000000-0000-0000-0000-000000000000"

/-- The restricted marker of the tests: admin grant for
"admin_address". -/
def sampleMarker : Marker :=
  { markerType := .restricted
    permissions :=
      [ { address := "admin_address"
          permissions := [.burn, .delete, .deposit, .admin, .mint, .withdraw] } ] }

/-- A stored transfer record. -/
def sampleTransfer : Transfer :=
  { id := sampleId, sender := "sender_address", denom := "restricted_1"
    amount := 3, recipient := "transfer_to" }

/-- Sample collaborators: the registry knows the restricted marker for
"restricted_1", every balance is 1000, and the address validator
accepts every nonempty string. -/
def sampleDeps : Deps :=
  { markers := fun d => if d = "restricted_1" then some sampleMarker else none
    balances := fun _ _ => 1000
    addrValidate := fun s => if s = "" then none else some s }

/-- The sample environment. -/
def sampleEnv : Env := { contractAddress := "contract_address" }

/-- A store holding just the sample transfer. -/
def sampleStore : TransferStore := storeSave emptyStore sampleId sampleTransfer

/-- Collaborators with an empty registry, zero balances and a rejecting
address validator. -/
def bareDeps : Deps :=
  { markers := fun _ => none
    balances := fun _ _ => 0
    addrValidate := fun _ => none }

/-- Sample collaborators, but every balance is 1. -/
def poorDeps : Deps :=
  { markers := sampleDeps.markers
    balances := fun _ _ => 1
    addrValidate := sampleDeps.addrValidate }

/-- Caller info with no attached funds. -/
def infoNoFunds (sender : Addr) : MessageInfo := { sender := sender, funds := [] }

/-- Caller info with one attached coin. -/
def infoWithFunds (sender : Addr) : MessageInfo :=
  { sender := sender, funds := [{ denom := "restricted_1", amount := 1 }] }

/-! ## General lemmas about the operations -/

theorem storeSave_self (store : TransferStore) (k : String) (t : Transfer) :
    storeSave store k t k = some t := by
  simp [storeSave]

theorem storeSave_other (store : TransferStore) (k : String) (t : Transfer)
    (x : String) (h : x ≠ k) : storeSave store k t x = store x := by
  simp [storeSave, h]

theorem storeRemove_self (store : TransferStore) (k : String) :
    storeRemove store k k = none := by
  simp [storeRemove]

theorem storeRemove_other (store : TransferStore) (k : String)
    (x : String) (h : x ≠ k) : storeRemove store k x = store x := by
  simp [storeRemove, h]

theorem theMessages_of_not_ok {e : Except ContractError Response}
    (h : exceptOk e = false) : theMessages e = [] := by
  cases e with
  | ok r => simp [exceptOk] at h
  | error err => rfl

theorem is_marker_admin_iff (sender : Addr) (marker : Marker) :
    is_marker_admin sender marker = true ↔
      ∃ grant ∈ marker.permissions,
        grant.address = sender ∧ MarkerAccess.admin ∈ grant.permissions := by
  simp [is_marker_admin, List.any_eq_true, Bool.and_eq_true, beq_iff_eq]

/-- A nonempty fund list is not `isEmpty`. -/
theorem isEmpty_false_of_ne_nil {l : List Coin} (h : l ≠ []) : l.isEmpty = false := by
  cases hl : l with
  | nil => exact absurd hl h
  | cons c cs => rfl

/-- Success characterization of `create_transfer`: with a validated
recipient, restricted marker, no funds, sufficient balance and a fresh
id, the call stores the record and emits the escrow instruction. -/
theorem create_transfer_ok
    (deps : Deps) (env : Env) (info : MessageInfo)
    (id denom recipient : String) (amount : Nat) (store : TransferStore)
    (recipientAddr : Addr) (marker : Marker)
    (hvalid : deps.addrValidate recipient = some recipientAddr)
    (hmarker : deps.markers denom = some marker)
    (hrestricted : marker.markerType = .restricted)
    (hfunds : info.funds = [])
    (hbalance : amount ≤ deps.balances info.sender denom)
    (hfresh : store id = none) :
    create_transfer deps env info id denom amount recipient store =
      (.ok
        { attributes :=
            [ { key := "action", value := "create_transfer" }
            , { key := "id", value := id }
            , { key := "denom", value := denom }
            , { key := "amount", value := toString amount }
            , { key := "sender", value := info.sender }
            , { key := "recipient", value := recipientAddr } ]
          messages :=
            [ { amount := amount, denom := denom
                toAddr := env.contractAddress, fromAddr := info.sender } ] },
        storeSave store id
          { id := id, sender := info.sender, denom := denom
            amount := amount, recipient := recipientAddr }) := by
  have hnlt : ¬ deps.balances info.sender denom < amount := not_lt.mpr hbalance
  simp [create_transfer, hvalid, hmarker, hrestricted, hfunds, hnlt, hfresh]

/-- Inversion for `create_transfer`: success forces every precondition. -/
theorem create_transfer_ok_inv
    (deps : Deps) (env : Env) (info : MessageInfo)
    (id denom recipient : String) (amount : Nat) (store : TransferStore)
    (h : exceptOk (create_transfer deps env info id denom amount recipient store).1 = true) :
    ∃ recipientAddr marker,
      deps.addrValidate recipient = some recipientAddr ∧
      deps.markers denom = some marker ∧ marker.markerType = .restricted ∧
      info.funds = [] ∧ amount ≤ deps.balances info.sender denom ∧
      store id = none := by
  revert h
  simp only [create_transfer]
  split
  · intro h; simp [exceptOk] at h
  · rename_i recipientAddr hvalid
    split
    · rename_i hres
      split
      · intro h; simp [exceptOk] at h
      · rename_i hfunds
        split
        · intro h; simp [exceptOk] at h
        · rename_i hbal
          split
          · intro h; simp [exceptOk] at h
          · rename_i hdup
            intro _
            have hfunds' : info.funds = [] := by
              cases hfe : info.funds with
              | nil => rfl
              | cons c cs => rw [hfe] at hfunds; simp at hfunds
            have hdup' : store id = none := by
              cases ho : store id with
              | none => rfl
              | some t => rw [ho] at hdup; simp at hdup
            cases hm : deps.markers denom with
            | none => rw [hm] at hres; simp at hres
            | some marker =>
              rw [hm] at hres
              exact ⟨recipientAddr, marker, hvalid, rfl,
                by simpa using hres, hfunds', not_lt.mp hbal, hdup'⟩
    · intro h; simp [exceptOk] at h

/-- Success characterization of `cancel_transfer`. -/
theorem cancel_transfer_ok
    (deps : Deps) (env : Env) (info : MessageInfo) (tid : String)
    (store : TransferStore) (t : Transfer)
    (hlookup : store tid = some t)
    (hfunds : info.funds = [])
    (hsender : info.sender = t.sender) :
    cancel_transfer deps env info tid store =
      (.ok
        { attributes :=
            [ { key := "action", value := "cancel" }
            , { key := "id", value := t.id }
            , { key := "denom", value := t.denom }
            , { key := "amount", value := toString t.amount }
            , { key := "sender", value := t.sender } ]
          messages :=
            [ { amount := t.amount, denom := t.denom
                toAddr := t.sender, fromAddr := env.contractAddress } ] },
        storeRemove store tid) := by
  simp [cancel_transfer, hlookup, hfunds, hsender]

/-- Inversion for `cancel_transfer`: success forces a stored record,
no attached funds, and caller equal to the stored sender. -/
theorem cancel_transfer_ok_inv
    (deps : Deps) (env : Env) (info : MessageInfo) (tid : String)
    (store : TransferStore)
    (h : exceptOk (cancel_transfer deps env info tid store).1 = true) :
    ∃ t, store tid = some t ∧ info.funds = [] ∧ info.sender = t.sender := by
  revert h
  simp only [cancel_transfer]
  split
  · intro h; simp [exceptOk] at h
  · rename_i t hlookup
    split
    · intro h; simp [exceptOk] at h
    · rename_i hfunds
      split
      · intro h; simp [exceptOk] at h
      · rename_i hsender
        intro _
        have hfunds' : info.funds = [] := by
          cases hfe : info.funds with
          | nil => rfl
          | cons c cs => rw [hfe] at hfunds; simp at hfunds
        exact ⟨t, hlookup, hfunds', by simpa using hsender⟩

/-- Success characterization of `reject_transfer`. -/
theorem reject_transfer_ok
    (deps : Deps) (env : Env) (info : MessageInfo) (tid : String)
    (store : TransferStore) (t : Transfer) (marker : Marker)
    (hlookup : store tid = some t)
    (hfunds : info.funds = [])
    (hmarker : deps.markers t.denom = some marker)
    (hadmin : is_marker_admin info.sender marker = true) :
    reject_transfer deps env info tid store =
      (.ok
        { attributes :=
            [ { key := "action", value := "reject" }
            , { key := "id", value := t.id }
            , { key := "denom", value := t.denom }
            , { key := "amount", value := toString t.amount }
            , { key := "sender", value := t.sender }
            , { key := "admin", value := info.sender } ]
          messages :=
            [ { amount := t.amount, denom := t.denom
                toAddr := t.sender, fromAddr := env.contractAddress } ] },
        storeRemove store tid) := by
  simp [reject_transfer, hlookup, hfunds, hmarker, hadmin]

/-- Inversion for `reject_transfer`: success forces a stored record,
no attached funds, a marker for the record denom and admin rights. -/
theorem reject_transfer_ok_inv
    (deps : Deps) (env : Env) (info : MessageInfo) (tid : String)
    (store : TransferStore)
    (h : exceptOk (reject_transfer deps env info tid store).1 = true) :
    ∃ t marker, store tid = some t ∧ info.funds = [] ∧
      deps.markers t.denom = some marker ∧
      is_marker_admin info.sender marker = true := by
  revert h
  simp only [reject_transfer]
  split
  · intro h; simp [exceptOk] at h
  · rename_i t hlookup
    split
    · intro h; simp [exceptOk] at h
    · rename_i hfunds
      split
      · intro h; simp [exceptOk] at h
      · rename_i marker hmarker
        split
        · intro h; simp [exceptOk] at h
        · rename_i hadmin
          intro _
          have hfunds' : info.funds = [] := by
            cases hfe : info.funds with
            | nil => rfl
            | cons c cs => rw [hfe] at hfunds; simp at hfunds
          exact ⟨t, marker, hlookup, hfunds', hmarker, by simpa using hadmin⟩

/-- Success characterization of `approve_transfer`. -/
theorem approve_transfer_ok
    (deps : Deps) (env : Env) (info : MessageInfo) (tid : String)
    (store : TransferStore) (t : Transfer) (marker : Marker)
    (hlookup : store tid = some t)
    (hfunds : info.funds = [])
    (hmarker : deps.markers t.denom = some marker)
    (hadmin : is_marker_admin info.sender marker = true) :
    approve_transfer deps env info tid store =
      (.ok
        { attributes :=
            [ { key := "action", value := "approve" }
            , { key := "id", value := t.id }
            , { key := "denom", value := t.denom }
            , { key := "amount", value := toString t.amount }
            , { key := "sender", value := t.sender }
            , { key := "recipient", value := t.recipient }
            , { key := "admin", value := info.sender } ]
          messages :=
            [ { amount := t.amount, denom := t.denom
                toAddr := t.recipient, fromAddr := env.contractAddress } ] },
        storeRemove store tid) := by
  simp [approve_transfer, hlookup, hfunds, hmarker, hadmin]

/-- Inversion for `approve_transfer`: success forces a stored record,
no attached funds, a marker for the record denom and admin rights. -/
theorem approve_transfer_ok_inv
    (deps : Deps) (env : Env) (info : MessageInfo) (tid : String)
    (store : TransferStore)
    (h : exceptOk (approve_transfer deps env info tid store).1 = true) :
    ∃ t marker, store tid = some t ∧ info.funds = [] ∧
      deps.markers t.denom = some marker ∧
      is_marker_admin info.sender marker = true := by
  revert h
  simp only [approve_transfer]
  split
  · intro h; simp [exceptOk] at h
  · rename_i t hlookup
    split
    · intro h; simp [exceptOk] at h
    · rename_i hfunds
      split
      · intro h; simp [exceptOk] at h
      · rename_i marker hmarker
        split
        · intro h; simp [exceptOk] at h
        · rename_i hadmin
          intro _
          have hfunds' : info.funds = [] := by
            cases hfe : info.funds with
            | nil => rfl
            | cons c cs => rw [hfe] at hfunds; simp at hfunds
          exact ⟨t, marker, hlookup, hfunds', hmarker, by simpa using hadmin⟩

/-- On any error path `create_transfer` leaves the store untouched. -/
theorem create_transfer_err_store
    (deps : Deps) (env : Env) (info : MessageInfo)
    (id denom recipient : String) (amount : Nat) (store : TransferStore)
    (h : exceptOk (create_transfer deps env info id denom amount recipient store).1 = false) :
    (create_transfer deps env info id denom amount recipient store).2 = store := by
  revert h
  simp only [create_transfer]
  split
  · intro _; rfl
  · split
    · split
      · intro _; rfl
      · split
        · intro _; rfl
        · split
          · intro _; rfl
          · intro h; simp [exceptOk] at h
    · intro _; rfl

/-- On any error path `cancel_transfer` leaves the store untouched. -/
theorem cancel_transfer_err_store
    (deps : Deps) (env : Env) (info : MessageInfo) (tid : String)
    (store : TransferStore)
    (h : exceptOk (cancel_transfer deps env info tid store).1 = false) :
    (cancel_transfer deps env info tid store).2 = store := by
  revert h
  simp only [cancel_transfer]
  split
  · intro _; rfl
  · split
    · intro _; rfl
    · split
      · intro _; rfl
      · intro h; simp [exceptOk] at h

/-- On any error path `reject_transfer` leaves the store untouched. -/
theorem reject_transfer_err_store
    (deps : Deps) (env : Env) (info : MessageInfo) (tid : String)
    (store : TransferStore)
    (h : exceptOk (reject_transfer deps env info tid store).1 = false) :
    (reject_transfer deps env info tid store).2 = store := by
  revert h
  simp only [reject_transfer]
  split
  · intro _; rfl
  · split
    · intro _; rfl
    · split
      · intro _; rfl
      · split
        · intro _; rfl
        · intro h; simp [exceptOk] at h

/-- On any error path `approve_transfer` leaves the store untouched. -/
theorem approve_transfer_err_store
    (deps : Deps) (env : Env) (info : MessageInfo) (tid : String)
    (store : TransferStore)
    (h : exceptOk (approve_transfer deps env info tid store).1 = false) :
    (approve_transfer deps env info tid store).2 = store := by
  revert h
  simp only [approve_transfer]
  split
  · intro _; rfl
  · split
    · intro _; rfl
    · split
      · intro _; rfl
      · split
        · intro _; rfl
        · intro h; simp [exceptOk] at h

/-- With attached funds, `create_transfer` never succeeds. -/
theorem create_transfer_funds_not_ok
    (deps : Deps) (env : Env) (info : MessageInfo)
    (id denom recipient : String) (amount : Nat) (store : TransferStore)
    (hfunds : info.funds ≠ []) :
    exceptOk (create_transfer deps env info id denom amount recipient store).1 = false := by
  have hne : info.funds.isEmpty = false := isEmpty_false_of_ne_nil hfunds
  simp only [create_transfer]
  split
  · rfl
  · split
    · simp [hne, exceptOk]
    · rfl

/-- With a stored record and attached funds, `cancel_transfer` fails
with `SentFundsUnsupported`. -/
theorem cancel_transfer_funds_err
    (deps : Deps) (env : Env) (info : MessageInfo) (tid : String)
    (store : TransferStore) (t : Transfer)
    (hlookup : store tid = some t) (hfunds : info.funds ≠ []) :
    (cancel_transfer deps env info tid store).1 = .error .sentFundsUnsupported := by
  have hne : info.funds.isEmpty = false := isEmpty_false_of_ne_nil hfunds
  simp [cancel_transfer, hlookup, hne]

/-- With a stored record and attached funds, `reject_transfer` fails
with `SentFundsUnsupported`. -/
theorem reject_transfer_funds_err
    (deps : Deps) (env : Env) (info : MessageInfo) (tid : String)
    (store : TransferStore) (t : Transfer)
    (hlookup : store tid = some t) (hfunds : info.funds ≠ []) :
    (reject_transfer deps env info tid store).1 = .error .sentFundsUnsupported := by
  have hne : info.funds.isEmpty = false := isEmpty_false_of_ne_nil hfunds
  simp [reject_transfer, hlookup, hne]

/-- With a stored record and attached funds, `approve_transfer` fails
with `SentFundsUnsupported`. -/
theorem approve_transfer_funds_err
    (deps : Deps) (env : Env) (info : MessageInfo) (tid : String)
    (store : TransferStore) (t : Transfer)
    (hlookup : store tid = some t) (hfunds : info.funds ≠ []) :
    (approve_transfer deps env info tid store).1 = .error .sentFundsUnsupported := by
  have hne : info.funds.isEmpty = false := isEmpty_false_of_ne_nil hfunds
  simp [approve_transfer, hlookup, hne]

/-- With a validated recipient, restricted marker and attached funds,
`create_transfer` fails with `SentFundsUnsupported`. -/
theorem create_transfer_funds_err
    (deps : Deps) (env : Env) (info : MessageInfo)
    (id denom recipient : String) (amount : Nat) (store : TransferStore)
    (a : Addr) (marker : Marker)
    (hvalid : deps.addrValidate recipient = some a)
    (hm : deps.markers denom = some marker)
    (hres : marker.markerType = .restricted)
    (hfunds : info.funds ≠ []) :
    (create_transfer deps env info id denom amount recipient store).1 =
      .error .sentFundsUnsupported := by
  have hne : info.funds.isEmpty = false := isEmpty_false_of_ne_nil hfunds
  simp [create_transfer, hvalid, hm, hres, hne]

/-- With a missing record, each resolve operation fails with
`LoadTransferFailed` and an untouched store. -/
theorem resolve_not_found
    (deps : Deps) (env : Env) (info : MessageInfo) (tid : String)
    (store : TransferStore) (hnone : store tid = none) :
    approve_transfer deps env info tid store =
      (.error (.loadTransferFailed (.notFound "Transfer")), store) ∧
    reject_transfer deps env info tid store =
      (.error (.loadTransferFailed (.notFound "Transfer")), store) ∧
    cancel_transfer deps env info tid store =
      (.error (.loadTransferFailed (.notFound "Transfer")), store) := by
  unfold approve_transfer reject_transfer cancel_transfer
  rw [hnone]
  exact ⟨rfl, rfl, rfl⟩

/-- With attached funds, `approve_transfer` never succeeds. -/
theorem approve_transfer_funds_not_ok
    (deps : Deps) (env : Env) (info : MessageInfo) (tid : String)
    (store : TransferStore) (hfunds : info.funds ≠ []) :
    exceptOk (approve_transfer deps env info tid store).1 = false := by
  cases hs : store tid with
  | none => rw [(resolve_not_found deps env info tid store hs).1]; rfl
  | some t => rw [approve_transfer_funds_err deps env info tid store t hs hfunds]; rfl

/-- With attached funds, `reject_transfer` never succeeds. -/
theorem reject_transfer_funds_not_ok
    (deps : Deps) (env : Env) (info : MessageInfo) (tid : String)
    (store : TransferStore) (hfunds : info.funds ≠ []) :
    exceptOk (reject_transfer deps env info tid store).1 = false := by
  cases hs : store tid with
  | none => rw [(resolve_not_found deps env info tid store hs).2.1]; rfl
  | some t => rw [reject_transfer_funds_err deps env info tid store t hs hfunds]; rfl

/-- With attached funds, `cancel_transfer` never succeeds. -/
theorem cancel_transfer_funds_not_ok
    (deps : Deps) (env : Env) (info : MessageInfo) (tid : String)
    (store : TransferStore) (hfunds : info.funds ≠ []) :
    exceptOk (cancel_transfer deps env info tid store).1 = false := by
  cases hs : store tid with
  | none => rw [(resolve_not_found deps env info tid store hs).2.2]; rfl
  | some t => rw [cancel_transfer_funds_err deps env info tid store t hs hfunds]; rfl

/-- C10: Cancel never consults the Asset Registry or the Ledger: two
Cancel invocations that agree on the stored record under the id, the
caller, the attached funds, the id and the contract address — but whose
registries, markers and account balances differ arbitrarily, and whose
stores may differ away from the id — return the same outcome (the same
success or error, attributes and custody-transfer instruction). -/
theorem cancel_ignores_registry_and_ledger
    (deps1 deps2 : Deps) (env : Env) (info : MessageInfo) (tid : String)
    (store1 store2 : TransferStore)
    (hagree : store1 tid = store2 tid) :
    (cancel_transfer deps1 env info tid store1).1 =
      (cancel_transfer deps2 env info tid store2).1 := by
  unfold cancel_transfer
  rw [hagree]
  cases store2 tid with
  | none => rfl
  | some t =>
    by_cases hf : info.funds = []
    · by_cases hs : info.sender = t.sender
      · simp [hf, hs]
      · simp [hf, hs]
    · simp [hf]

/-- C7: in Approve, Reject and Cancel the checks run in order: a missing
record fails with `LoadTransferFailed` before any funds or authorization
check, and with a record present attached funds fail with
`SentFundsUnsupported` before authorization and before any Asset
Registry consultation (the conclusion holds for every registry). -/
theorem resolve_check_order
    (deps : Deps) (env : Env) (info : MessageInfo) (tid : String)
    (store : TransferStore) (t : Transfer) :
    (store tid = none →
      (approve_transfer deps env info tid store).1 =
          .error (.loadTransferFailed (.notFound "Transfer")) ∧
      (reject_transfer deps env info tid store).1 =
          .error (.loadTransferFailed (.notFound "Transfer")) ∧
      (cancel_transfer deps env info tid store).1 =
          .error (.loadTransferFailed (.notFound "Transfer"))) ∧
    (store tid = some t → info.funds ≠ [] →
      (approve_transfer deps env info tid store).1 = .error .sentFundsUnsupported ∧
      (reject_transfer deps env info tid store).1 = .error .sentFundsUnsupported ∧
      (cancel_transfer deps env info tid store).1 = .error .sentFundsUnsupported) := by
  constructor
  · intro hnone
    unfold approve_transfer reject_transfer cancel_transfer
    rw [hnone]
    exact ⟨rfl, rfl, rfl⟩
  · intro hsome hfunds
    have hne : info.funds.isEmpty = false := by
      cases hfe : info.funds with
      | nil => exact absurd hfe hfunds
      | cons c cs => rfl
    unfold approve_transfer reject_transfer cancel_transfer
    rw [hsome]
    simp [hne]

/-- C8: with a restricted marker, no attached funds and a valid
recipient, Create fails with `InsufficientFunds` and leaves the store
unchanged exactly when the sender balance is strictly below the amount;
with balance at least the amount (equality included) the balance check
passes and `InsufficientFunds` cannot be the outcome. -/
theorem create_balance_check
    (deps : Deps) (env : Env) (info : MessageInfo)
    (id denom recipient : String) (amount : Nat) (store : TransferStore)
    (recipientAddr : Addr) (marker : Marker)
    (hvalid : deps.addrValidate recipient = some recipientAddr)
    (hmarker : deps.markers denom = some marker)
    (hrestricted : marker.markerType = .restricted)
    (hfunds : info.funds = []) :
    (deps.balances info.sender denom < amount →
      (create_transfer deps env info id denom amount recipient store).1 =
          .error .insufficientFunds ∧
      (create_transfer deps env info id denom amount recipient store).2 = store) ∧
    (amount ≤ deps.balances info.sender denom →
      (create_transfer deps env info id denom amount recipient store).1 ≠
          .error .insufficientFunds) := by
  unfold create_transfer
  rw [hvalid]
  simp only [hmarker, hrestricted, hfunds]
  constructor
  · intro hlt
    simp [hlt]
  · intro hge
    have hnlt : ¬ deps.balances info.sender denom < amount := not_lt.mpr hge
    by_cases hdup : (store id).isSome = true
    · simp [hnlt, hdup]
    · simp [hnlt, hdup]

/-- C1: a transfer record is present in the store iff it is pending:
a successful Create inserts the record under its id and touches no
other key, and every successful Approve, Reject or Cancel on an id
removes the record under that id, touches no other key, and emits its
custody-transfer instruction in the same invocation — so after a
successful resolution the store no longer contains the id. -/
theorem transfer_record_iff_pending
    (deps : Deps) (env : Env) (info : MessageInfo)
    (id denom recipient tid : String) (amount : Nat) (store : TransferStore) :
    (exceptOk (create_transfer deps env info id denom amount recipient store).1 = true →
      ((create_transfer deps env info id denom amount recipient store).2 id).isSome = true ∧
      ∀ k, k ≠ id →
        (create_transfer deps env info id denom amount recipient store).2 k = store k) ∧
    (exceptOk (approve_transfer deps env info tid store).1 = true →
      (approve_transfer deps env info tid store).2 tid = none ∧
      (∀ k, k ≠ tid → (approve_transfer deps env info tid store).2 k = store k) ∧
      (theMessages (approve_transfer deps env info tid store).1).length = 1) ∧
    (exceptOk (reject_transfer deps env info tid store).1 = true →
      (reject_transfer deps env info tid store).2 tid = none ∧
      (∀ k, k ≠ tid → (reject_transfer deps env info tid store).2 k = store k) ∧
      (theMessages (reject_transfer deps env info tid store).1).length = 1) ∧
    (exceptOk (cancel_transfer deps env info tid store).1 = true →
      (cancel_transfer deps env info tid store).2 tid = none ∧
      (∀ k, k ≠ tid → (cancel_transfer deps env info tid store).2 k = store k) ∧
      (theMessages (cancel_transfer deps env info tid store).1).length = 1) := by
  refine ⟨?_, ?_, ?_, ?_⟩
  · intro h
    obtain ⟨rA, marker, hvalid, hmarker, hres, hfunds, hbal, hfresh⟩ :=
      create_transfer_ok_inv deps env info id denom recipient amount store h
    rw [create_transfer_ok deps env info id denom recipient amount store rA marker
      hvalid hmarker hres hfunds hbal hfresh]
    refine ⟨by simp [storeSave], fun k hk => ?_⟩
    simp [storeSave, hk]
  · intro h
    obtain ⟨t, marker, hlookup, hfunds, hmarker, hadmin⟩ :=
      approve_transfer_ok_inv deps env info tid store h
    rw [approve_transfer_ok deps env info tid store t marker hlookup hfunds hmarker hadmin]
    exact ⟨storeRemove_self store tid, fun k hk => storeRemove_other store tid k hk, rfl⟩
  · intro h
    obtain ⟨t, marker, hlookup, hfunds, hmarker, hadmin⟩ :=
      reject_transfer_ok_inv deps env info tid store h
    rw [reject_transfer_ok deps env info tid store t marker hlookup hfunds hmarker hadmin]
    exact ⟨storeRemove_self store tid, fun k hk => storeRemove_other store tid k hk, rfl⟩
  · intro h
    obtain ⟨t, hlookup, hfunds, hsender⟩ :=
      cancel_transfer_ok_inv deps env info tid store h
    rw [cancel_transfer_ok deps env info tid store t hlookup hfunds hsender]
    exact ⟨storeRemove_self store tid, fun k hk => storeRemove_other store tid k hk, rfl⟩

theorem transfer_record_iff_pending_witness :
    (cancel_transfer sampleDeps sampleEnv (infoNoFunds "sender_address")
      sampleId sampleStore).2 sampleId = none :=
  ((transfer_record_iff_pending sampleDeps sampleEnv (infoNoFunds "sender_address")
    sampleId "restricted_1" "transfer_to" sampleId 3 sampleStore).2.2.2 (by rfl)).1

/-- C2: for a pending transfer with no attached funds, Approve and
Reject succeed iff the caller holds a grant on the transfer's denom
whose permission set contains the Admin capability; a non-admin caller
gets the Unauthorized error with the store unchanged. Cancel succeeds
iff the caller equals the stored sender; any other caller gets the
Unauthorized error with the store unchanged. -/
theorem resolve_authorization
    (deps : Deps) (env : Env) (info : MessageInfo) (tid : String)
    (store : TransferStore) (t : Transfer)
    (hlookup : store tid = some t)
    (hfunds : info.funds = []) :
    (∀ marker, deps.markers t.denom = some marker →
      (exceptOk (approve_transfer deps env info tid store).1 = true ↔
        ∃ grant ∈ marker.permissions,
          grant.address = info.sender ∧ MarkerAccess.admin ∈ grant.permissions) ∧
      (exceptOk (reject_transfer deps env info tid store).1 = true ↔
        ∃ grant ∈ marker.permissions,
          grant.address = info.sender ∧ MarkerAccess.admin ∈ grant.permissions) ∧
      (is_marker_admin info.sender marker = false →
        approve_transfer deps env info tid store =
          (.error (.unauthorized
            "MARKER_ADMIN permission is required to approve transfers"), store) ∧
        reject_transfer deps env info tid store =
          (.error (.unauthorized
            "MARKER_ADMIN permission is required to reject transfers"), store))) ∧
    (exceptOk (cancel_transfer deps env info tid store).1 = true ↔
      info.sender = t.sender) ∧
    (info.sender ≠ t.sender →
      cancel_transfer deps env info tid store =
        (.error (.unauthorized "Only original sender can cancel"), store)) := by
  refine ⟨?_, ?_, ?_⟩
  · intro marker hmarker
    refine ⟨⟨?_, ?_⟩, ⟨?_, ?_⟩, ?_⟩
    · intro h
      obtain ⟨t', marker', hlookup', _, hmarker', hadmin'⟩ :=
        approve_transfer_ok_inv deps env info tid store h
      rw [hlookup] at hlookup'
      injection hlookup' with ht
      subst ht
      rw [hmarker] at hmarker'
      injection hmarker' with hm
      subst hm
      exact (is_marker_admin_iff info.sender marker).mp hadmin'
    · intro hex
      have hadmin := (is_marker_admin_iff info.sender marker).mpr hex
      rw [approve_transfer_ok deps env info tid store t marker hlookup hfunds hmarker hadmin]
      rfl
    · intro h
      obtain ⟨t', marker', hlookup', _, hmarker', hadmin'⟩ :=
        reject_transfer_ok_inv deps env info tid store h
      rw [hlookup] at hlookup'
      injection hlookup' with ht
      subst ht
      rw [hmarker] at hmarker'
      injection hmarker' with hm
      subst hm
      exact (is_marker_admin_iff info.sender marker).mp hadmin'
    · intro hex
      have hadmin := (is_marker_admin_iff info.sender marker).mpr hex
      rw [reject_transfer_ok deps env info tid store t marker hlookup hfunds hmarker hadmin]
      rfl
    · intro hadmin
      constructor
      · simp [approve_transfer, hlookup, hfunds, hmarker, hadmin]
      · simp [reject_transfer, hlookup, hfunds, hmarker, hadmin]
  · constructor
    · intro h
      obtain ⟨t', hlookup', _, hsender⟩ := cancel_transfer_ok_inv deps env info tid store h
      rw [hlookup] at hlookup'
      injection hlookup' with ht
      subst ht
      exact hsender
    · intro hsender
      rw [cancel_transfer_ok deps env info tid store t hlookup hfunds hsender]
      rfl
  · intro hsender
    simp [cancel_transfer, hlookup, hfunds, hsender]

theorem resolve_authorization_witness :
    exceptOk (approve_transfer sampleDeps sampleEnv (infoNoFunds "admin_address")
      sampleId sampleStore).1 = true := by
  have h := resolve_authorization sampleDeps sampleEnv (infoNoFunds "admin_address")
    sampleId sampleStore sampleTransfer rfl rfl
  exact ((h.1 sampleMarker rfl).1).mpr
    ⟨{ address := "admin_address"
       permissions := [.burn, .delete, .deposit, .admin, .mint, .withdraw] },
      by decide, rfl, by decide⟩

/-- C4: a Create whose id already has a live record (restricted marker,
no funds, sufficient balance, validated recipient) fails with
`InvalidFields {fields: [id]}` and leaves the store unchanged; re-issuing
the same duplicate Create any number of times keeps the store fixed and
keeps producing the same error. -/
theorem duplicate_create_rejected
    (deps : Deps) (env : Env) (info : MessageInfo)
    (id denom recipient : String) (amount : Nat) (store : TransferStore)
    (recipientAddr : Addr) (marker : Marker) (t : Transfer)
    (hvalid : deps.addrValidate recipient = some recipientAddr)
    (hmarker : deps.markers denom = some marker)
    (hrestricted : marker.markerType = .restricted)
    (hfunds : info.funds = [])
    (hbalance : amount ≤ deps.balances info.sender denom)
    (hdup : store id = some t) :
    create_transfer deps env info id denom amount recipient store =
      (.error (.invalidFields ["id"]), store) ∧
    (∀ n, createIter deps env info id denom amount recipient n store = store) ∧
    (∀ n, (create_transfer deps env info id denom amount recipient
        (createIter deps env info id denom amount recipient n store)).1 =
      .error (.invalidFields ["id"])) := by
  have hnlt : ¬ deps.balances info.sender denom < amount := not_lt.mpr hbalance
  have hone : create_transfer deps env info id denom amount recipient store =
      (.error (.invalidFields ["id"]), store) := by
    simp [create_transfer, hvalid, hmarker, hrestricted, hfunds, hnlt, hdup]
  have hiter : ∀ n, createIter deps env info id denom amount recipient n store = store := by
    intro n
    induction n with
    | zero => rfl
    | succ m ih =>
      show createIter deps env info id denom amount recipient m
        (create_transfer deps env info id denom amount recipient store).2 = store
      rw [hone]
      exact ih
  refine ⟨hone, hiter, fun n => ?_⟩
  rw [hiter n, hone]

theorem duplicate_create_rejected_witness :
    (create_transfer sampleDeps sampleEnv (infoNoFunds "sender_address")
      sampleId "restricted_1" 3 "transfer_to" sampleStore).1 =
      .error (.invalidFields ["id"]) := by
  have h := duplicate_create_rejected sampleDeps sampleEnv (infoNoFunds "sender_address")
    sampleId "restricted_1" "transfer_to" 3 sampleStore "transfer_to" sampleMarker
    sampleTransfer rfl rfl rfl rfl (by decide) rfl
  rw [h.1]

/-- C5: every invocation of Create, Approve, Reject or Cancel (also via
the execute entrypoint) that returns an error leaves the transfer store
exactly as it was and emits no custody-transfer instruction. -/
theorem error_is_only_outcome
    (deps : Deps) (env : Env) (info : MessageInfo)
    (id denom recipient tid : String) (amount : Nat)
    (msg : ExecuteMsg) (store : TransferStore) :
    (exceptOk (create_transfer deps env info id denom amount recipient store).1 = false →
      (create_transfer deps env info id denom amount recipient store).2 = store ∧
      theMessages (create_transfer deps env info id denom amount recipient store).1 = []) ∧
    (exceptOk (approve_transfer deps env info tid store).1 = false →
      (approve_transfer deps env info tid store).2 = store ∧
      theMessages (approve_transfer deps env info tid store).1 = []) ∧
    (exceptOk (reject_transfer deps env info tid store).1 = false →
      (reject_transfer deps env info tid store).2 = store ∧
      theMessages (reject_transfer deps env info tid store).1 = []) ∧
    (exceptOk (cancel_transfer deps env info tid store).1 = false →
      (cancel_transfer deps env info tid store).2 = store ∧
      theMessages (cancel_transfer deps env info tid store).1 = []) ∧
    (exceptOk (execute deps env info msg store).1 = false →
      (execute deps env info msg store).2 = store ∧
      theMessages (execute deps env info msg store).1 = []) := by
  refine ⟨fun h => ⟨create_transfer_err_store deps env info id denom recipient amount store h,
      theMessages_of_not_ok h⟩,
    fun h => ⟨approve_transfer_err_store deps env info tid store h, theMessages_of_not_ok h⟩,
    fun h => ⟨reject_transfer_err_store deps env info tid store h, theMessages_of_not_ok h⟩,
    fun h => ⟨cancel_transfer_err_store deps env info tid store h, theMessages_of_not_ok h⟩,
    fun h => ⟨?_, theMessages_of_not_ok h⟩⟩
  revert h
  cases msg with
  | approveTransfer i =>
    unfold execute
    cases hv : (ExecuteMsg.approveTransfer i).validate with
    | error e => intro _; rfl
    | ok u => exact fun h => approve_transfer_err_store deps env info i store h
  | cancelTransfer i =>
    unfold execute
    cases hv : (ExecuteMsg.cancelTransfer i).validate with
    | error e => intro _; rfl
    | ok u => exact fun h => cancel_transfer_err_store deps env info i store h
  | rejectTransfer i =>
    unfold execute
    cases hv : (ExecuteMsg.rejectTransfer i).validate with
    | error e => intro _; rfl
    | ok u => exact fun h => reject_transfer_err_store deps env info i store h
  | transfer i d a r =>
    unfold execute
    cases hv : (ExecuteMsg.transfer i d a r).validate with
    | error e => intro _; rfl
    | ok u => exact fun h => create_transfer_err_store deps env info i d r a store h

theorem error_is_only_outcome_witness :
    (execute sampleDeps sampleEnv (infoNoFunds "x")
      (ExecuteMsg.approveTransfer "not-a-real-uuid") emptyStore).2 = emptyStore := by
  have h := error_is_only_outcome sampleDeps sampleEnv (infoNoFunds "x")
    sampleId "restricted_1" "transfer_to" sampleId 3
    (ExecuteMsg.approveTransfer "not-a-real-uuid") emptyStore
  exact (h.2.2.2.2 (by rfl)).1

/-- C6: every successful operation emits exactly one custody-transfer
instruction carrying exactly the record's amount and denom: Create from
the sender to the contract address; Approve from the contract address to
the stored recipient; Reject and Cancel from the contract address back
to the stored sender. -/
theorem single_custody_instruction
    (deps : Deps) (env : Env) (info : MessageInfo)
    (id denom recipient tid : String) (amount : Nat)
    (store : TransferStore) (t : Transfer) :
    (exceptOk (create_transfer deps env info id denom amount recipient store).1 = true →
      theMessages (create_transfer deps env info id denom amount recipient store).1 =
        [ { amount := amount, denom := denom
            toAddr := env.contractAddress, fromAddr := info.sender } ]) ∧
    (store tid = some t →
      (exceptOk (approve_transfer deps env info tid store).1 = true →
        theMessages (approve_transfer deps env info tid store).1 =
          [ { amount := t.amount, denom := t.denom
              toAddr := t.recipient, fromAddr := env.contractAddress } ]) ∧
      (exceptOk (reject_transfer deps env info tid store).1 = true →
        theMessages (reject_transfer deps env info tid store).1 =
          [ { amount := t.amount, denom := t.denom
              toAddr := t.sender, fromAddr := env.contractAddress } ]) ∧
      (exceptOk (cancel_transfer deps env info tid store).1 = true →
        theMessages (cancel_transfer deps env info tid store).1 =
          [ { amount := t.amount, denom := t.denom
              toAddr := t.sender, fromAddr := env.contractAddress } ])) := by
  constructor
  · intro h
    obtain ⟨rA, marker, hvalid, hmarker, hres, hfunds, hbal, hfresh⟩ :=
      create_transfer_ok_inv deps env info id denom recipient amount store h
    rw [create_transfer_ok deps env info id denom recipient amount store rA marker
      hvalid hmarker hres hfunds hbal hfresh]
    rfl
  · intro hstore
    refine ⟨?_, ?_, ?_⟩
    · intro h
      obtain ⟨t', marker, hlookup, hfunds, hmarker, hadmin⟩ :=
        approve_transfer_ok_inv deps env info tid store h
      rw [hstore] at hlookup
      injection hlookup with ht
      subst ht
      rw [approve_transfer_ok deps env info tid store t marker hstore hfunds hmarker hadmin]
      rfl
    · intro h
      obtain ⟨t', marker, hlookup, hfunds, hmarker, hadmin⟩ :=
        reject_transfer_ok_inv deps env info tid store h
      rw [hstore] at hlookup
      injection hlookup with ht
      subst ht
      rw [reject_transfer_ok deps env info tid store t marker hstore hfunds hmarker hadmin]
      rfl
    · intro h
      obtain ⟨t', hlookup, hfunds, hsender⟩ :=
        cancel_transfer_ok_inv deps env info tid store h
      rw [hstore] at hlookup
      injection hlookup with ht
      subst ht
      rw [cancel_transfer_ok deps env info tid store t hstore hfunds hsender]
      rfl

theorem single_custody_instruction_witness :
    theMessages (approve_transfer sampleDeps sampleEnv (infoNoFunds "admin_address")
      sampleId sampleStore).1 =
      [ { amount := 3, denom := "restricted_1"
          toAddr := "transfer_to", fromAddr := "contract_address" } ] := by
  have h := single_custody_instruction sampleDeps sampleEnv (infoNoFunds "admin_address")
    sampleId "restricted_1" "transfer_to" sampleId 3 sampleStore sampleTransfer
  exact (h.2 rfl).1 (by rfl)

/-- C9: Create never checks that the recipient differs from the sender:
when the recipient validates to the sender's own address (denom
restricted, no funds, sufficient balance, fresh id), Create succeeds and
stores the record with recipient equal to the sender, and a subsequent
Approve by an administrator emits a custody-transfer instruction whose
destination is that same sender. -/
theorem create_to_self_allowed
    (deps : Deps) (env : Env) (info adminInfo : MessageInfo)
    (id denom recipient : String) (amount : Nat)
    (store : TransferStore) (marker : Marker)
    (hvalid : deps.addrValidate recipient = some info.sender)
    (hmarker : deps.markers denom = some marker)
    (hrestricted : marker.markerType = .restricted)
    (hfunds : info.funds = [])
    (hbalance : amount ≤ deps.balances info.sender denom)
    (hfresh : store id = none)
    (hadminFunds : adminInfo.funds = [])
    (hadmin : is_marker_admin adminInfo.sender marker = true) :
    exceptOk (create_transfer deps env info id denom amount recipient store).1 = true ∧
    (create_transfer deps env info id denom amount recipient store).2 id =
      some { id := id, sender := info.sender, denom := denom
             amount := amount, recipient := info.sender } ∧
    theMessages (approve_transfer deps env adminInfo id
        (create_transfer deps env info id denom amount recipient store).2).1 =
      [ { amount := amount, denom := denom
          toAddr := info.sender, fromAddr := env.contractAddress } ] := by
  rw [create_transfer_ok deps env info id denom recipient amount store info.sender marker
    hvalid hmarker hrestricted hfunds hbalance hfresh]
  refine ⟨rfl, storeSave_self store id _, ?_⟩
  rw [approve_transfer_ok deps env adminInfo id
    (storeSave store id ⟨id, info.sender, denom, amount, info.sender⟩)
    ⟨id, info.sender, denom, amount, info.sender⟩ marker
    (storeSave_self store id _) hadminFunds hmarker hadmin]
  rfl

theorem create_to_self_allowed_witness :
    theMessages (approve_transfer sampleDeps sampleEnv (infoNoFunds "admin_address") otherId
        (create_transfer sampleDeps sampleEnv (infoNoFunds "selfsender") otherId
          "restricted_1" 5 "selfsender" emptyStore).2).1 =
      [ { amount := 5, denom := "restricted_1"
          toAddr := "selfsender", fromAddr := "contract_address" } ] := by
  have h := create_to_self_allowed sampleDeps sampleEnv (infoNoFunds "selfsender")
    (infoNoFunds "admin_address") otherId "restricted_1" "selfsender" 5
    emptyStore sampleMarker rfl rfl rfl rfl (by decide) rfl rfl (by decide)
  exact h.2.2

/-- C3 counterexample: an execute call with attached funds does not
always fail with `SentFundsUnsupported` — Cancel with funds on a missing
record fails with `LoadTransferFailed` instead. -/
theorem funds_attached_not_always_sentFunds :
    (infoWithFunds "anyone").funds ≠ [] ∧
    (execute sampleDeps sampleEnv (infoWithFunds "anyone")
        (ExecuteMsg.cancelTransfer sampleId) emptyStore).1 =
      .error (.loadTransferFailed (.notFound "Transfer")) ∧
    ContractError.loadTransferFailed (.notFound "Transfer") ≠
      ContractError.sentFundsUnsupported := by
  exact ⟨by decide, by rfl, by decide⟩

/-- C3 (amended): every execute call with non-empty attached funds fails
and produces no state change; the error is `SentFundsUnsupported`
whenever the checks that the code runs first pass — message validation,
record-present for Approve/Reject/Cancel, and validated recipient plus
restricted marker for Transfer — and is the earlier check's error
otherwise. -/
theorem funds_attached_always_fails
    (deps : Deps) (env : Env) (info : MessageInfo)
    (msg : ExecuteMsg) (store : TransferStore)
    (hfunds : info.funds ≠ []) :
    (exceptOk (execute deps env info msg store).1 = false ∧
     (execute deps env info msg store).2 = store) ∧
    (∀ tid, (msg = .approveTransfer tid ∨ msg = .rejectTransfer tid ∨
        msg = .cancelTransfer tid) →
      msg.validate = .ok () → ∀ t, store tid = some t →
      (execute deps env info msg store).1 = .error .sentFundsUnsupported) ∧
    (∀ id denom amount recipient marker a, msg = .transfer id denom amount recipient →
      msg.validate = .ok () →
      deps.markers denom = some marker → marker.markerType = .restricted →
      deps.addrValidate recipient = some a →
      (execute deps env info msg store).1 = .error .sentFundsUnsupported) := by
  have hexec : exceptOk (execute deps env info msg store).1 = false := by
    cases msg with
    | approveTransfer i =>
      unfold execute
      cases hv : (ExecuteMsg.approveTransfer i).validate with
      | error e => rfl
      | ok u => exact approve_transfer_funds_not_ok deps env info i store hfunds
    | cancelTransfer i =>
      unfold execute
      cases hv : (ExecuteMsg.cancelTransfer i).validate with
      | error e => rfl
      | ok u => exact cancel_transfer_funds_not_ok deps env info i store hfunds
    | rejectTransfer i =>
      unfold execute
      cases hv : (ExecuteMsg.rejectTransfer i).validate with
      | error e => rfl
      | ok u => exact reject_transfer_funds_not_ok deps env info i store hfunds
    | transfer i d a r =>
      unfold execute
      cases hv : (ExecuteMsg.transfer i d a r).validate with
      | error e => rfl
      | ok u => exact create_transfer_funds_not_ok deps env info i d r a store hfunds
  have hstoreEq : (execute deps env info msg store).2 = store := by
    revert hexec
    cases msg with
    | approveTransfer i =>
      unfold execute
      cases hv : (ExecuteMsg.approveTransfer i).validate with
      | error e => intro _; rfl
      | ok u => exact fun h => approve_transfer_err_store deps env info i store h
    | cancelTransfer i =>
      unfold execute
      cases hv : (ExecuteMsg.cancelTransfer i).validate with
      | error e => intro _; rfl
      | ok u => exact fun h => cancel_transfer_err_store deps env info i store h
    | rejectTransfer i =>
      unfold execute
      cases hv : (ExecuteMsg.rejectTransfer i).validate with
      | error e => intro _; rfl
      | ok u => exact fun h => reject_transfer_err_store deps env info i store h
    | transfer i d a r =>
      unfold execute
      cases hv : (ExecuteMsg.transfer i d a r).validate with
      | error e => intro _; rfl
      | ok u => exact fun h => create_transfer_err_store deps env info i d r a store h
  refine ⟨⟨hexec, hstoreEq⟩, ?_, ?_⟩
  · rintro tid (rfl | rfl | rfl) hvalid t hlookup
    · unfold execute
      rw [hvalid]
      exact approve_transfer_funds_err deps env info tid store t hlookup hfunds
    · unfold execute
      rw [hvalid]
      exact reject_transfer_funds_err deps env info tid store t hlookup hfunds
    · unfold execute
      rw [hvalid]
      exact cancel_transfer_funds_err deps env info tid store t hlookup hfunds
  · rintro id denom amount recipient marker a rfl hvalid hmarker hres haddr
    unfold execute
    rw [hvalid]
    exact create_transfer_funds_err deps env info id denom recipient amount store a marker
      haddr hmarker hres hfunds

theorem funds_attached_always_fails_witness :
    (execute sampleDeps sampleEnv (infoWithFunds "admin_address")
      (ExecuteMsg.approveTransfer sampleId) sampleStore).1 =
      .error .sentFundsUnsupported := by
  have h := funds_attached_always_fails sampleDeps sampleEnv (infoWithFunds "admin_address")
    (ExecuteMsg.approveTransfer sampleId) sampleStore (by decide)
  exact h.2.1 sampleId (Or.inl rfl) (by rfl) sampleTransfer rfl

theorem resolve_check_order_witness :
    (approve_transfer sampleDeps sampleEnv (infoWithFunds "admin_address")
        sampleId sampleStore).1 = .error .sentFundsUnsupported ∧
    (cancel_transfer sampleDeps sampleEnv (infoWithFunds "anyone")
        otherId emptyStore).1 = .error (.loadTransferFailed (.notFound "Transfer")) := by
  constructor
  · exact ((resolve_check_order sampleDeps sampleEnv (infoWithFunds "admin_address")
      sampleId sampleStore sampleTransfer).2 rfl (by decide)).1
  · exact ((resolve_check_order sampleDeps sampleEnv (infoWithFunds "anyone")
      otherId emptyStore sampleTransfer).1 rfl).2.2

theorem create_balance_check_witness :
    (create_transfer poorDeps sampleEnv (infoNoFunds "sender_address")
      otherId "restricted_1" 2 "transfer_to" emptyStore).1 =
      .error .insufficientFunds := by
  have h := create_balance_check poorDeps sampleEnv (infoNoFunds "sender_address")
    otherId "restricted_1" "transfer_to" 2 emptyStore "transfer_to" sampleMarker
    rfl rfl rfl rfl
  exact (h.1 (by decide)).1

theorem cancel_ignores_registry_and_ledger_witness :
    (cancel_transfer sampleDeps sampleEnv (infoNoFunds "sender_address")
        sampleId sampleStore).1 =
      (cancel_transfer bareDeps sampleEnv (infoNoFunds "sender_address")
        sampleId (storeSave sampleStore otherId sampleTransfer)).1 :=
  cancel_ignores_registry_and_ledger sampleDeps bareDeps sampleEnv
    (infoNoFunds "sender_address") sampleId sampleStore
    (storeSave sampleStore otherId sampleTransfer) (by rfl)

end RestrictedTransfer
